import Mathlib

/-!
Verification of the script-mode `register` CLI command
(`flytekit/clis/sdk_in_container/register.py`).

The command's non-trivial surface is `_parse_workflow_inputs`: it walks the
raw extra CLI tokens two at a time, strips the `--` prefix from each flag
name (`click_ctx.args[i][2:]`), looks the stripped name up in the workflow's
declared input interface, and converts the raw string value according to the
python type guessed for the declared type: `str` values pass through, `int`
values go through Python's `int(...)`, `StructuredDataset` values are treated
as local file paths that are uploaded (one `create_upload_location` call plus
one `put_data` call per such argument) with the resolved value wrapping the
returned native URL.  Collaborators (the remote client, the type engine, the
file-access utility) are modelled as injected parameters; their observable
interactions are recorded in an explicit effect trace.
-/

namespace Register

/-- The python type guessed by `TypeEngine.guess_python_type` for a declared
input's literal type.  The source dispatches on `python_type == str`,
`python_type == int`, `python_type == StructuredDataset`, with every other
python type falling into the `else` branch; `other` carries a name standing
for any such type. -/
inductive PyType where
  | text
  | integer
  | structuredDataset
  | other (typename : String)
deriving DecidableEq, Repr

/-- An upload-location descriptor (`CreateUploadLocationResponse`): the pair
of the internal/native URL and the externally writable signed URL. -/
structure UploadLocation where
  native_url : String
  signed_url : String
deriving DecidableEq, Repr

/-- A resolved argument value: a passed-through string, a parsed integer, or
a `StructuredDataset(uri=...)` wrapping a native URL. -/
inductive Value where
  | str (s : String)
  | int (n : Int)
  | structuredDataset (uri : String)
deriving DecidableEq, Repr

/-- The errors `_parse_workflow_inputs` can raise: `KeyError` from the
interface lookup, `ValueError` from `int(value)` (carrying the offending
string), `ValueError` with message `Unsupported type for argument {argument}`
(carrying the argument name), and `IndexError` from `click_ctx.args[i + 1]`
on a dangling flag. -/
inductive ResolveError where
  | lookup (name : String)
  | conversion (s : String)
  | unsupported (name : String)
  | indexOutOfRange
deriving DecidableEq, Repr

/-- Observable side effects of resolution, in order: an upload-location
acquisition (`create_upload_location_fn()`) and a file transfer
(`flyte_ctx.file_access.put_data(value, df_remote_location.signed_url)`). -/
inductive Effect where
  | createUploadLocation
  | putData (localPath : String) (signedUri : String)
deriving DecidableEq, Repr

/-- Python `s[2:]`: drop the first two characters (fewer when the string is
shorter). -/
def strip2 (s : String) : String := ⟨s.data.drop 2⟩

/-- The workflow's declared input interface composed with the type engine:
an association list modelling
`argument ↦ TypeEngine.guess_python_type(wf_entity.interface.inputs[argument].type)`;
`none` models the `KeyError` case of an undeclared argument. -/
def lookupType (inputs : List (String × PyType)) (name : String) : Option PyType :=
  match inputs.find? (fun p => p.1 == name) with
  | some p => some p.2
  | none => none

/-- Python dict assignment `args[argument] = value`: update in place when the
key is present (insertion order preserved), append otherwise. -/
def insertArg (m : List (String × Value)) (k : String) (v : Value) :
    List (String × Value) :=
  if m.any (fun p => p.1 == k) then
    m.map (fun p => if p.1 == k then (k, v) else p)
  else
    m ++ [(k, v)]

/-- ASCII whitespace stripped by Python's `int` before parsing. -/
def isPySpace (c : Char) : Bool :=
  c = ' ' || c = '\t' || c = '\n' || c = '\r' || c = '\x0b' || c = '\x0c'

/-- Strip leading and trailing whitespace from a character list. -/
def stripWs (cs : List Char) : List Char :=
  ((cs.dropWhile isPySpace).reverse.dropWhile isPySpace).reverse

/-- Accumulate a decimal digit run, allowing a single underscore between two
digits (Python 3 numeric-literal grouping), as accepted by `int(...)`. -/
def digitsAux : Nat → List Char → Option Nat
  | acc, [] => some acc
  | acc, [c] =>
      if c.isDigit then some (acc * 10 + (c.toNat - 48)) else none
  | acc, c :: d :: rest =>
      if c.isDigit then digitsAux (acc * 10 + (c.toNat - 48)) (d :: rest)
      else if c = '_' && d.isDigit then digitsAux (acc * 10 + (d.toNat - 48)) rest
      else none

/-- Parse a nonempty digit run that starts with a digit. -/
def parseDigits (cs : List Char) : Option Nat :=
  match cs with
  | [] => none
  | c :: _ => if c.isDigit then digitsAux 0 cs else none

/-- Python's `int(value)` on a string: strip surrounding whitespace, allow a
single leading sign, then a nonempty digit run with underscore grouping;
`none` models the `ValueError` it raises otherwise. -/
def pyInt (s : String) : Option Int :=
  match stripWs s.data with
  | '+' :: rest => (parseDigits rest).map Int.ofNat
  | '-' :: rest => (parseDigits rest).map (fun n => -(Int.ofNat n : Int))
  | rest => (parseDigits rest).map Int.ofNat

/-- The mutable context of the resolution loop: the `args` dict built so far,
the trace of collaborator side effects performed so far, and the number of
upload locations acquired so far (indexing the injected descriptor stream). -/
structure ResolveState where
  args : List (String × Value)
  trace : List Effect
  nUploads : Nat
deriving DecidableEq, Repr

/-- One iteration of the loop body of `_parse_workflow_inputs` on the pair
`(flag, value)`: strip the prefix, look the name up, dispatch on the guessed
python type, and store the resolved value.  `uploads k` is the descriptor
returned by the `k`-th `create_upload_location_fn()` call. -/
def resolveStep (inputs : List (String × PyType)) (uploads : Nat → UploadLocation)
    (flag value : String) (st : ResolveState) : Except ResolveError ResolveState :=
  let argument := strip2 flag
  match lookupType inputs argument with
  | none => .error (.lookup argument)
  | some .text =>
      .ok ⟨insertArg st.args argument (.str value), st.trace, st.nUploads⟩
  | some .integer =>
      match pyInt value with
      | none => .error (.conversion value)
      | some n => .ok ⟨insertArg st.args argument (.int n), st.trace, st.nUploads⟩
  | some .structuredDataset =>
      let loc := uploads st.nUploads
      .ok ⟨insertArg st.args argument (.structuredDataset loc.native_url),
           st.trace ++ [.createUploadLocation, .putData value loc.signed_url],
           st.nUploads + 1⟩
  | some (.other _) => .error (.unsupported argument)

/-- The loop `for i in range(0, len(click_ctx.args), 2)`: consume the token
list two at a time.  A dangling single token models the iteration whose
`click_ctx.args[i + 1]` access raises `IndexError` (the state at that point
is returned alongside the error, so the effects performed so far stay
observable). -/
def resolvePairs (inputs : List (String × PyType)) (uploads : Nat → UploadLocation) :
    List String → ResolveState → ResolveState × Option ResolveError
  | [], st => (st, none)
  | [_], st => (st, some .indexOutOfRange)
  | flag :: value :: rest, st =>
      match resolveStep inputs uploads flag value st with
      | .error e => (st, some e)
      | .ok st2 => resolvePairs inputs uploads rest st2

/-- `_parse_workflow_inputs(click_ctx, wf_entity, create_upload_location_fn)`:
resolve the raw extra CLI tokens against the workflow's input interface,
starting from an empty dict, an empty effect trace and no uploads. -/
def _parse_workflow_inputs (inputs : List (String × PyType))
    (uploads : Nat → UploadLocation) (tokens : List String) :
    ResolveState × Option ResolveError :=
  resolvePairs inputs uploads tokens ⟨[], [], 0⟩

/-- The keyword arguments of one `client.create_upload_location` call:
project, domain, and the optional suffix (absent for the structured-dataset
calls, which pass only `project="flytesnacks", domain="development"`). -/
structure UploadRequest where
  project : String
  domain : String
  suffix : Option String
deriving DecidableEq, Repr

/-- The suffix of the script-archive upload, `f"scriptmode-{version}.tar.gz"`. -/
def scriptSuffix (version : String) : String :=
  "scriptmode-" ++ version ++ ".tar.gz"

/-- What `run` observably does before handing off to registration and
execution: the workflow entities loaded (recorded as the filename and
workflow-name split of the positional argument; the source derives the
import-module name from the filename) and the upload-location requests made,
in order. -/
structure RunTrace where
  moduleLoads : List (String × String)
  uploadRequests : List UploadRequest
deriving DecidableEq, Repr

/-- The failures `run` itself raises before reaching the registration and
execution collaborators: the `FlyteValidationException` for a malformed
positional argument, and any error propagating out of
`_parse_workflow_inputs`. -/
inductive RunError where
  | validation (msg : String)
  | resolveErr (e : ResolveError)
deriving DecidableEq, Repr

/-- The fixed keyword arguments bound by
`functools.partial(client.create_upload_location, project="flytesnacks", domain="development")`. -/
def sdUploadRequest : UploadRequest := ⟨"flytesnacks", "development", none⟩

/-- Python's `file_and_workflow.split(":")`: split the character sequence on
every colon (an input without a colon yields the one-element list holding
the input itself). -/
def pySplitColon (s : String) : List String :=
  (s.data.splitOn ':').map (fun cs => ⟨cs⟩)

/-- The `run` command up to (and excluding) the registration and execution
collaborator calls.  `client k req` is the descriptor the remote client
returns for the `k`-th `create_upload_location` call of the invocation when
made with keyword arguments `req`; `hashFile` models
`script_mode.hash_script_file`.  The positional argument is split on `:` and
must yield exactly two parts, before the module is loaded; in remote mode the
workflow inputs are resolved (each structured-dataset argument requesting an
upload location with the fixed project/domain), and afterwards the script
archive's upload location is requested with the user-supplied project and
domain and the version-derived suffix. -/
def run (file_and_workflow : String) (remote : Bool) (project domain : String)
    (inputs : List (String × PyType)) (tokens : List String)
    (client : Nat → UploadRequest → UploadLocation)
    (hashFile : String → String) : RunTrace × Option RunError :=
  match pySplitColon file_and_workflow with
  | [filename, workflow_name] =>
      let loads := [(filename, workflow_name)]
      if remote then
        let uploads := fun k => client k sdUploadRequest
        let r := _parse_workflow_inputs inputs uploads tokens
        match r.2 with
        | some e =>
            (⟨loads, List.replicate r.1.nUploads sdUploadRequest⟩, some (.resolveErr e))
        | none =>
            let version := hashFile filename
            (⟨loads, List.replicate r.1.nUploads sdUploadRequest ++
                [⟨project, domain, some (scriptSuffix version)⟩]⟩, none)
      else
        (⟨loads, []⟩, none)
  | _ =>
      (⟨[], []⟩, some (.validation
        ("Input " ++ file_and_workflow ++ " must be in format '<file.py>:<worfklow>'")))

/-- The complete `(flag, value)` pairs of the token list, in order (a
dangling last token forms no pair). -/
def pairsOf : List String → List (String × String)
  | f :: v :: rest => (f, v) :: pairsOf rest
  | _ => []

/-- Modelled from the spec words for C2's comparison: one token pair parsed
independently and in isolation — the Text or Integer conversion of the raw
value under the pair's declared type, `none` when the pair is not a
convertible Text/Integer pair. -/
def convertTextInt (inputs : List (String × PyType)) (f v : String) : Option Value :=
  match lookupType inputs (strip2 f) with
  | some .text => some (.str v)
  | some .integer => (pyInt v).map Value.int
  | _ => none

/-- Folding step of the independent per-pair resolution: insert the pair's
independent conversion under the stripped name (pairs without a conversion
contribute nothing). -/
def indepStep (inputs : List (String × PyType)) (m : List (String × Value))
    (p : String × String) : List (String × Value) :=
  match convertTextInt inputs p.1 p.2 with
  | some v => insertArg m (strip2 p.1) v
  | none => m

/-- Modelled from the spec words for C2's comparison: resolve every token
pair independently and collect the results. -/
def independentResolve (inputs : List (String × PyType)) (tokens : List String) :
    List (String × Value) :=
  (pairsOf tokens).foldl (indepStep inputs) []

/-- The raw values of the structured-data-typed arguments, as they occur in
the token list. -/
def structuredValues (inputs : List (String × PyType)) (tokens : List String) :
    List String :=
  ((pairsOf tokens).filter
      (fun p => decide (lookupType inputs (strip2 p.1) =
        some PyType.structuredDataset))).map Prod.snd

/-- The effect trace of uploading the given local paths in order, the first
with the `k`-th acquired descriptor. -/
def structuredTrace (uploads : Nat → UploadLocation) : Nat → List String → List Effect
  | _, [] => []
  | k, v :: vs =>
      Effect.createUploadLocation :: Effect.putData v (uploads k).signed_url ::
        structuredTrace uploads (k + 1) vs

/-- Induction on a list consumed two elements at a time, matching the shape
of the `range(0, len(args), 2)` loop. -/
theorem pair_induction {α : Type} {motive : List α → Prop}
    (h0 : motive []) (h1 : ∀ a, motive [a])
    (h2 : ∀ a b l, motive l → motive (a :: b :: l)) : ∀ l, motive l := by
  have H : ∀ n (l : List α), l.length ≤ n → motive l := by
    intro n
    induction n with
    | zero =>
        intro l hl
        match l with
        | [] => exact h0
        | a :: t => simp at hl
    | succ n ih =>
        intro l hl
        match l with
        | [] => exact h0
        | [a] => exact h1 a
        | a :: b :: t =>
            exact h2 a b t (ih t (by simp at hl; omega))
  exact fun l => H l.length l le_rfl

/-- C1: a structured-data-typed argument performs exactly one
upload-location acquisition and exactly one file transfer — the transfer
copies the raw CLI value (the local path) to the descriptor's signed URL —
and the value stored for the argument wraps the descriptor's native URL
(never the local path, never the signed URL); resolution then continues on
the remaining tokens. -/
theorem c1_structured_pair_effects (inputs : List (String × PyType))
    (uploads : Nat → UploadLocation) (flag value : String) (rest : List String)
    (st : ResolveState)
    (h : lookupType inputs (strip2 flag) = some PyType.structuredDataset) :
    resolvePairs inputs uploads (flag :: value :: rest) st =
      resolvePairs inputs uploads rest
        ⟨insertArg st.args (strip2 flag)
           (Value.structuredDataset (uploads st.nUploads).native_url),
         st.trace ++ [Effect.createUploadLocation,
                      Effect.putData value (uploads st.nUploads).signed_url],
         st.nUploads + 1⟩ := by
  simp [resolvePairs, resolveStep, h]

/-- Witness for C1 at the spec's example: tokens `["--df", "/local/data.csv"]`
against interface `{df : StructuredDataset}` yield one upload, one transfer
of `/local/data.csv` to the signed URL, and the map `{df ↦ native URL}`. -/
theorem c1_structured_pair_effects_witness :
    lookupType [("df", PyType.structuredDataset)] (strip2 "--df") =
      some PyType.structuredDataset ∧
    _parse_workflow_inputs [("df", PyType.structuredDataset)]
        (fun _ => ⟨"s3://bucket/native", "https://signed"⟩)
        ["--df", "/local/data.csv"] =
      (⟨[("df", Value.structuredDataset "s3://bucket/native")],
        [Effect.createUploadLocation,
         Effect.putData "/local/data.csv" "https://signed"], 1⟩, none) :=
  ⟨rfl,
   (c1_structured_pair_effects [("df", PyType.structuredDataset)]
      (fun _ => ⟨"s3://bucket/native", "https://signed"⟩)
      "--df" "/local/data.csv" [] ⟨[], [], 0⟩ rfl).trans (by decide)⟩

/-- C4: an integer-typed argument parses the raw string with Python's `int`:
when the string is not a valid integer literal resolution fails with the
conversion error carrying that string, and when it parses to `n` the
argument is stored as the integer `n` and resolution continues. -/
theorem c4_integer_conversion (inputs : List (String × PyType))
    (uploads : Nat → UploadLocation) (flag value : String) (rest : List String)
    (st : ResolveState)
    (h : lookupType inputs (strip2 flag) = some PyType.integer) :
    (pyInt value = none →
      resolvePairs inputs uploads (flag :: value :: rest) st =
        (st, some (ResolveError.conversion value))) ∧
    (∀ n, pyInt value = some n →
      resolvePairs inputs uploads (flag :: value :: rest) st =
        resolvePairs inputs uploads rest
          ⟨insertArg st.args (strip2 flag) (Value.int n), st.trace, st.nUploads⟩) := by
  constructor
  · intro hv
    simp [resolvePairs, resolveStep, h, hv]
  · intro n hv
    simp [resolvePairs, resolveStep, h, hv]

/-- Witness for C4 at the spec's examples: `["--count", "42"]` resolves to
`{count ↦ 42}` while `["--count", "abc"]` fails with the conversion error. -/
theorem c4_integer_conversion_witness :
    lookupType [("count", PyType.integer)] (strip2 "--count") = some PyType.integer ∧
    _parse_workflow_inputs [("count", PyType.integer)] (fun _ => ⟨"n", "s"⟩)
        ["--count", "42"] = (⟨[("count", Value.int 42)], [], 0⟩, none) ∧
    _parse_workflow_inputs [("count", PyType.integer)] (fun _ => ⟨"n", "s"⟩)
        ["--count", "abc"] = (⟨[], [], 0⟩, some (ResolveError.conversion "abc")) :=
  ⟨rfl,
   ((c4_integer_conversion [("count", PyType.integer)] (fun _ => ⟨"n", "s"⟩)
       "--count" "42" [] ⟨[], [], 0⟩ rfl).2 42 (by decide)).trans (by decide),
   (c4_integer_conversion [("count", PyType.integer)] (fun _ => ⟨"n", "s"⟩)
       "--count" "abc" [] ⟨[], [], 0⟩ rfl).1 (by decide)⟩

/-- C5: a token pair whose prefix-stripped name is not declared in the input
interface fails with the lookup error for that name, and resolution aborts
at that pair (the remaining tokens are not examined and no further state is
built). -/
theorem c5_undeclared_lookup (inputs : List (String × PyType))
    (uploads : Nat → UploadLocation) (flag value : String) (rest : List String)
    (st : ResolveState)
    (h : lookupType inputs (strip2 flag) = none) :
    resolvePairs inputs uploads (flag :: value :: rest) st =
      (st, some (ResolveError.lookup (strip2 flag))) := by
  simp [resolvePairs, resolveStep, h]

/-- Witness for C5 at the spec's example: `["--missing", "x"]` against the
empty interface fails with the lookup error for `missing`. -/
theorem c5_undeclared_lookup_witness :
    lookupType [] (strip2 "--missing") = none ∧
    _parse_workflow_inputs [] (fun _ => ⟨"n", "s"⟩) ["--missing", "x"] =
      (⟨[], [], 0⟩, some (ResolveError.lookup "missing")) :=
  ⟨rfl, c5_undeclared_lookup [] (fun _ => ⟨"n", "s"⟩) "--missing" "x" [] ⟨[], [], 0⟩ rfl⟩

/-- C6: an argument whose guessed python type is neither `str`, `int`, nor
`StructuredDataset` fails with the unsupported-type error naming the
offending argument, and resolution aborts at that pair. -/
theorem c6_unsupported_type (inputs : List (String × PyType))
    (uploads : Nat → UploadLocation) (flag value : String) (rest : List String)
    (st : ResolveState) (t : String)
    (h : lookupType inputs (strip2 flag) = some (PyType.other t)) :
    resolvePairs inputs uploads (flag :: value :: rest) st =
      (st, some (ResolveError.unsupported (strip2 flag))) := by
  simp [resolvePairs, resolveStep, h]

/-- Witness for C6: an argument declared with python type `float` fails with
the unsupported-type error naming `ratio`. -/
theorem c6_unsupported_type_witness :
    lookupType [("ratio", PyType.other "float")] (strip2 "--ratio") =
      some (PyType.other "float") ∧
    _parse_workflow_inputs [("ratio", PyType.other "float")] (fun _ => ⟨"n", "s"⟩)
        ["--ratio", "0.5"] = (⟨[], [], 0⟩, some (ResolveError.unsupported "ratio")) :=
  ⟨rfl, c6_unsupported_type [("ratio", PyType.other "float")] (fun _ => ⟨"n", "s"⟩)
      "--ratio" "0.5" [] ⟨[], [], 0⟩ "float" rfl⟩

/-- C9 fails on the code: for the pair `["--count", "42"]` the resolved map's
only key is the prefix-stripped name `count`, and the unstripped name
`--count` is not a key of the map. -/
theorem c9_unstripped_key_counterexample :
    _parse_workflow_inputs [("count", PyType.integer)] (fun _ => ⟨"n", "s"⟩)
        ["--count", "42"] = (⟨[("count", Value.int 42)], [], 0⟩, none) ∧
    ¬ ("--count" ∈ ((_parse_workflow_inputs [("count", PyType.integer)]
        (fun _ => ⟨"n", "s"⟩) ["--count", "42"]).1.args.map Prod.fst)) := by
  constructor
  · decide
  · decide

/-- C9 (amended): every successfully resolved token pair is inserted into
the output map under the prefix-stripped name (`click_ctx.args[i][2:]`),
not under the raw flag token. -/
theorem c9_stripped_key (inputs : List (String × PyType))
    (uploads : Nat → UploadLocation) (flag value : String)
    (st st2 : ResolveState)
    (h : resolveStep inputs uploads flag value st = .ok st2) :
    ∃ v, st2.args = insertArg st.args (strip2 flag) v := by
  unfold resolveStep at h
  cases hl : lookupType inputs (strip2 flag) with
  | none => simp [hl] at h
  | some pt =>
      cases pt with
      | text =>
          simp [hl] at h
          exact ⟨Value.str value, by rw [← h]⟩
      | integer =>
          cases hn : pyInt value with
          | none => simp [hl, hn] at h
          | some n =>
              simp [hl, hn] at h
              exact ⟨Value.int n, by rw [← h]⟩
      | structuredDataset =>
          simp [hl] at h
          exact ⟨Value.structuredDataset (uploads st.nUploads).native_url, by rw [← h]⟩
      | other t => simp [hl] at h

/-- Witness for the amended C9: the pair `["--count", "42"]` is stored under
the stripped key `count`. -/
theorem c9_stripped_key_witness :
    resolveStep [("count", PyType.integer)] (fun _ => ⟨"n", "s"⟩) "--count" "42"
        ⟨[], [], 0⟩ = .ok ⟨[("count", Value.int 42)], [], 0⟩ ∧
    ∃ v, (ResolveState.mk [("count", Value.int 42)] [] 0).args =
      insertArg [] (strip2 "--count") v :=
  ⟨rfl,
   c9_stripped_key [("count", PyType.integer)] (fun _ => ⟨"n", "s"⟩) "--count" "42"
     ⟨[], [], 0⟩ ⟨[("count", Value.int 42)], [], 0⟩ rfl⟩

/-- C7: the command fails with the validation error exactly when splitting
the positional argument on `:` does not yield exactly two parts; in that
case it fails before any module loading or upload request; and a well-formed
`<file>:<workflow>` argument splits into the filename and the workflow
name. -/
theorem c7_positional_validation (s : String) (remote : Bool) (project domain : String)
    (inputs : List (String × PyType)) (tokens : List String)
    (client : Nat → UploadRequest → UploadLocation) (hashFile : String → String) :
    ((∃ m, (run s remote project domain inputs tokens client hashFile).2 =
        some (RunError.validation m)) ↔ (pySplitColon s).length ≠ 2) ∧
    ((pySplitColon s).length ≠ 2 →
      run s remote project domain inputs tokens client hashFile =
        (⟨[], []⟩, some (RunError.validation
          ("Input " ++ s ++ " must be in format '<file.py>:<worfklow>'")))) ∧
    (∀ f w, pySplitColon s = [f, w] →
      (run s remote project domain inputs tokens client hashFile).1.moduleLoads =
        [(f, w)]) := by
  have key : ∀ a b, pySplitColon s = [a, b] →
      (run s remote project domain inputs tokens client hashFile).1.moduleLoads = [(a, b)] ∧
      ∀ m, (run s remote project domain inputs tokens client hashFile).2 ≠
        some (RunError.validation m) := by
    intro a b hs
    unfold run
    rw [hs]
    cases remote with
    | false => simp
    | true =>
        cases h2 : (_parse_workflow_inputs inputs
            (fun k => client k sdUploadRequest) tokens).2 with
        | none => simp [h2]
        | some e => simp [h2]
  have hbad : (pySplitColon s).length ≠ 2 →
      run s remote project domain inputs tokens client hashFile =
        (⟨[], []⟩, some (RunError.validation
          ("Input " ++ s ++ " must be in format '<file.py>:<worfklow>'"))) := by
    intro hlen
    unfold run
    rcases hs : pySplitColon s with _ | ⟨a, _ | ⟨b, _ | ⟨c, rest⟩⟩⟩ <;>
      simp [hs] at hlen ⊢
  rcases hs2 : pySplitColon s with _ | ⟨a, _ | ⟨b, _ | ⟨c, rest⟩⟩⟩
  · exact ⟨⟨fun _ => by simp,
      fun _ => ⟨_, by rw [hbad (by simp [hs2])]⟩⟩,
      fun _ => hbad (by simp [hs2]), fun f w hw => by simp at hw⟩
  · exact ⟨⟨fun _ => by simp,
      fun _ => ⟨_, by rw [hbad (by simp [hs2])]⟩⟩,
      fun _ => hbad (by simp [hs2]), fun f w hw => by simp at hw⟩
  · obtain ⟨hload, hnoval⟩ := key a b hs2
    refine ⟨⟨fun hm => ?_, fun h2 => (h2 (by simp)).elim⟩,
      fun h2 => (h2 (by simp)).elim, fun f w hw => ?_⟩
    · obtain ⟨m, hm⟩ := hm
      exact absurd hm (hnoval m)
    · obtain ⟨rfl, rfl⟩ : a = f ∧ b = w := by simpa using hw
      exact hload
  · exact ⟨⟨fun _ => by simp,
      fun _ => ⟨_, by rw [hbad (by simp [hs2])]⟩⟩,
      fun _ => hbad (by simp [hs2]), fun f w hw => by simp at hw⟩

/-- Witness for C7: `"a:b:c"` fails validation with the source's message, and
`"script.py:my_workflow"` loads filename `script.py` and workflow
`my_workflow`. -/
theorem c7_positional_validation_witness :
    ((pySplitColon "a:b:c").length ≠ 2 ∧
      run "a:b:c" false "p" "d" [] [] (fun _ _ => ⟨"n", "s"⟩) (fun _ => "v") =
        (⟨[], []⟩, some (RunError.validation
          "Input a:b:c must be in format '<file.py>:<worfklow>'"))) ∧
    (pySplitColon "script.py:my_workflow" = ["script.py", "my_workflow"] ∧
      (run "script.py:my_workflow" false "p" "d" [] [] (fun _ _ => ⟨"n", "s"⟩)
          (fun _ => "v")).1.moduleLoads = [("script.py", "my_workflow")]) :=
  ⟨⟨by decide,
    (c7_positional_validation "a:b:c" false "p" "d" [] []
        (fun _ _ => ⟨"n", "s"⟩) (fun _ => "v")).2.1 (by decide)⟩,
   ⟨by decide,
    (c7_positional_validation "script.py:my_workflow" false "p" "d" [] []
        (fun _ _ => ⟨"n", "s"⟩) (fun _ => "v")).2.2 "script.py" "my_workflow"
        (by decide)⟩⟩

/-- The suffix-less structured-dataset upload requests are kept unchanged by
filtering on an absent suffix. -/
theorem filter_isNone_replicate (n : Nat) :
    (List.replicate n sdUploadRequest).filter (fun r => r.suffix.isNone) =
      List.replicate n sdUploadRequest := by
  induction n with
  | zero => rfl
  | succ n ih => simp [List.replicate_succ, List.filter_cons, sdUploadRequest, ih]

/-- C3: the structured-dataset upload requests are independent of the
`--project` and `--domain` flags — two invocations differing only in
those flags issue the same suffix-less requests, every suffix-less request
carries the fixed project `flytesnacks` and domain `development` — while the
script-archive request (the one with a suffix) carries the user-supplied
project and domain. -/
theorem c3_upload_project_domain (s : String) (p1 d1 p2 d2 : String)
    (inputs : List (String × PyType)) (tokens : List String)
    (client : Nat → UploadRequest → UploadLocation) (hashFile : String → String) :
    ((run s true p1 d1 inputs tokens client hashFile).1.uploadRequests.filter
        (fun r => r.suffix.isNone) =
      (run s true p2 d2 inputs tokens client hashFile).1.uploadRequests.filter
        (fun r => r.suffix.isNone)) ∧
    (∀ r ∈ (run s true p1 d1 inputs tokens client hashFile).1.uploadRequests,
        r.suffix.isNone → r.project = "flytesnacks" ∧ r.domain = "development") ∧
    (∀ r ∈ (run s true p1 d1 inputs tokens client hashFile).1.uploadRequests,
        r.suffix.isSome → r.project = p1 ∧ r.domain = d1) := by
  rcases hs : pySplitColon s with _ | ⟨a, _ | ⟨b, _ | ⟨c, rest⟩⟩⟩
  · have h1 : ∀ p d, (run s true p d inputs tokens client hashFile).1.uploadRequests =
        [] := by
      intro p d; unfold run; rw [hs]
    refine ⟨by rw [h1, h1], fun r hr => ?_, fun r hr => ?_⟩ <;>
      · rw [h1] at hr; simp at hr
  · have h1 : ∀ p d, (run s true p d inputs tokens client hashFile).1.uploadRequests =
        [] := by
      intro p d; unfold run; rw [hs]
    refine ⟨by rw [h1, h1], fun r hr => ?_, fun r hr => ?_⟩ <;>
      · rw [h1] at hr; simp at hr
  · cases h2 : (_parse_workflow_inputs inputs
        (fun k => client k sdUploadRequest) tokens).2 with
    | some e =>
        have h1 : ∀ p d, (run s true p d inputs tokens client hashFile).1.uploadRequests =
            List.replicate (_parse_workflow_inputs inputs
              (fun k => client k sdUploadRequest) tokens).1.nUploads sdUploadRequest := by
          intro p d; unfold run; rw [hs]; simp [h2]
        refine ⟨by rw [h1, h1], fun r hr hn => ?_, fun r hr hsuf => ?_⟩
        · rw [h1] at hr
          rw [List.eq_of_mem_replicate hr]
          exact ⟨rfl, rfl⟩
        · rw [h1] at hr
          rw [List.eq_of_mem_replicate hr] at hsuf
          simp [sdUploadRequest] at hsuf
    | none =>
        have h1 : ∀ p d, (run s true p d inputs tokens client hashFile).1.uploadRequests =
            List.replicate (_parse_workflow_inputs inputs
              (fun k => client k sdUploadRequest) tokens).1.nUploads sdUploadRequest ++
            [⟨p, d, some (scriptSuffix (hashFile a))⟩] := by
          intro p d; unfold run; rw [hs]; simp [h2]
        refine ⟨?_, fun r hr hn => ?_, fun r hr hsuf => ?_⟩
        · rw [h1, h1]
          simp [List.filter_append, filter_isNone_replicate]
        · rw [h1] at hr
          rcases List.mem_append.mp hr with hmem | hmem
          · rw [List.eq_of_mem_replicate hmem]
            exact ⟨rfl, rfl⟩
          · rw [List.mem_singleton.mp hmem] at hn
            simp at hn
        · rw [h1] at hr
          rcases List.mem_append.mp hr with hmem | hmem
          · rw [List.eq_of_mem_replicate hmem] at hsuf
            simp [sdUploadRequest] at hsuf
          · rw [List.mem_singleton.mp hmem]
            exact ⟨rfl, rfl⟩
  · have h1 : ∀ p d, (run s true p d inputs tokens client hashFile).1.uploadRequests =
        [] := by
      intro p d; unfold run; rw [hs]
    refine ⟨by rw [h1, h1], fun r hr => ?_, fun r hr => ?_⟩ <;>
      · rw [h1] at hr; simp at hr

/-- Witness for C3: with a structured-dataset argument, two invocations with
different project/domain flags issue identical suffix-less upload requests. -/
theorem c3_upload_project_domain_witness :
    (run "f.py:wf" true "projA" "domA" [("df", PyType.structuredDataset)]
        ["--df", "/a.csv"] (fun _ _ => ⟨"n", "s"⟩) (fun _ => "v")).1.uploadRequests.filter
      (fun r => r.suffix.isNone) =
    (run "f.py:wf" true "projB" "domB" [("df", PyType.structuredDataset)]
        ["--df", "/a.csv"] (fun _ _ => ⟨"n", "s"⟩) (fun _ => "v")).1.uploadRequests.filter
      (fun r => r.suffix.isNone) :=
  (c3_upload_project_domain "f.py:wf" "projA" "domA" "projB" "domB"
    [("df", PyType.structuredDataset)] ["--df", "/a.csv"]
    (fun _ _ => ⟨"n", "s"⟩) (fun _ => "v")).1

/-- On Text/Integer-only convertible tokens, the resolution loop computes
the independent per-pair fold from any starting state, performs no side
effects, and acquires no upload locations. -/
theorem resolvePairs_indep_aux (inputs : List (String × PyType))
    (uploads : Nat → UploadLocation) :
    ∀ tokens : List String, tokens.length % 2 = 0 →
      (∀ p ∈ pairsOf tokens, (convertTextInt inputs p.1 p.2).isSome) →
      ∀ st : ResolveState,
        resolvePairs inputs uploads tokens st =
          (⟨(pairsOf tokens).foldl (indepStep inputs) st.args,
            st.trace, st.nUploads⟩, none) := by
  refine pair_induction ?_ ?_ ?_
  · intro _ _ st
    rfl
  · intro a h _ st
    simp at h
  · intro a b l ih h hconv st
    have hab : (convertTextInt inputs a b).isSome := hconv (a, b) (by simp [pairsOf])
    have heven : l.length % 2 = 0 := by
      simp only [List.length_cons] at h
      omega
    have hconv2 : ∀ p ∈ pairsOf l, (convertTextInt inputs p.1 p.2).isSome :=
      fun p hp => hconv p (List.mem_cons_of_mem _ hp)
    cases hl : lookupType inputs (strip2 a) with
    | none => simp [convertTextInt, hl] at hab
    | some pt =>
        cases pt with
        | text =>
            rw [show resolvePairs inputs uploads (a :: b :: l) st =
                resolvePairs inputs uploads l
                  ⟨insertArg st.args (strip2 a) (Value.str b), st.trace, st.nUploads⟩ from by
              simp [resolvePairs, resolveStep, hl]]
            rw [ih heven hconv2 _]
            simp [pairsOf, indepStep, convertTextInt, hl]
        | integer =>
            cases hn : pyInt b with
            | none => simp [convertTextInt, hl, hn] at hab
            | some n =>
                rw [show resolvePairs inputs uploads (a :: b :: l) st =
                    resolvePairs inputs uploads l
                      ⟨insertArg st.args (strip2 a) (Value.int n), st.trace, st.nUploads⟩ from by
                  simp [resolvePairs, resolveStep, hl, hn]]
                rw [ih heven hconv2 _]
                simp [pairsOf, indepStep, convertTextInt, hl, hn]
        | structuredDataset => simp [convertTextInt, hl] at hab
        | other t => simp [convertTextInt, hl] at hab

/-- In-place dict update keeps the key sequence of the map unchanged. -/
theorem insertArg_map_fst (m : List (String × Value)) (k : String) (v : Value) :
    (m.map (fun p => if p.1 == k then (k, v) else p)).map Prod.fst =
      m.map Prod.fst := by
  induction m with
  | nil => rfl
  | cons p t ih =>
      simp only [List.map_cons, ih]
      congr 1
      by_cases hp : p.1 == k
      · have h2 : p.1 = k := by simpa using hp
        simp [hp, h2]
      · simp [hp]

/-- Dict insertion adds exactly the inserted key to the key multiset's
support: membership in the keys after `insertArg` is membership before, or
being the inserted key. -/
theorem insertArg_keys_mem (m : List (String × Value)) (k : String) (v : Value)
    (x : String) :
    x ∈ (insertArg m k v).map Prod.fst ↔ (x ∈ m.map Prod.fst ∨ x = k) := by
  unfold insertArg
  by_cases h : m.any (fun p => p.1 == k)
  · rw [if_pos h]
    rw [insertArg_map_fst]
    obtain ⟨p, hpm, hpk⟩ := List.any_eq_true.mp h
    have hk : k ∈ m.map Prod.fst := by
      have : p.1 = k := by simpa using hpk
      exact this ▸ List.mem_map_of_mem Prod.fst hpm
    constructor
    · exact fun hx => Or.inl hx
    · rintro (hx | rfl)
      · exact hx
      · exact hk
  · rw [if_neg h]
    simp

/-- Keys of the independent per-pair fold: the starting keys plus the
stripped names of the convertible pairs. -/
theorem indepStep_fold_keys (inputs : List (String × PyType)) :
    ∀ (ps : List (String × String)) (m : List (String × Value)),
      (∀ p ∈ ps, (convertTextInt inputs p.1 p.2).isSome) →
      ∀ x, x ∈ ((ps.foldl (indepStep inputs) m).map Prod.fst) ↔
        (x ∈ m.map Prod.fst ∨ x ∈ ps.map (fun p => strip2 p.1)) := by
  intro ps
  induction ps with
  | nil => simp
  | cons p t ih =>
      intro m hconv x
      have hp : (convertTextInt inputs p.1 p.2).isSome := hconv p (by simp)
      obtain ⟨v, hv⟩ := Option.isSome_iff_exists.mp hp
      rw [List.foldl_cons,
        show indepStep inputs m p = insertArg m (strip2 p.1) v from by
          simp [indepStep, hv]]
      rw [ih _ (fun q hq => hconv q (List.mem_cons_of_mem _ hq)) x]
      rw [insertArg_keys_mem]
      simp only [List.map_cons, List.mem_cons]
      tauto

/-- C2 fails on the code as stated: the token list `["--count", "abc"]` has
even length and its only name is declared with the Integer type, yet
resolution does not succeed — it fails with the conversion error. -/
theorem c2_counterexample :
    (["--count", "abc"] : List String).length % 2 = 0 ∧
    lookupType [("count", PyType.integer)] (strip2 "--count") = some PyType.integer ∧
    (_parse_workflow_inputs [("count", PyType.integer)] (fun _ => ⟨"n", "s"⟩)
        ["--count", "abc"]).2 = some (ResolveError.conversion "abc") := by
  refine ⟨by decide, by decide, by decide⟩

/-- C2 (amended): for every even-length token list whose prefix-stripped
names are all declared with only Text or Integer types and whose
Integer-typed values are all valid integer literals, resolution succeeds,
equals the independent per-pair parse (Text unchanged, Integer parsed, each
pair converted in isolation), performs no side effects, and the resolved
map's key set is exactly the set of provided stripped names — in particular
it never contains a key absent from the CLI input. -/
theorem c2_independent_pairs (inputs : List (String × PyType))
    (uploads : Nat → UploadLocation) (tokens : List String)
    (heven : tokens.length % 2 = 0)
    (hconv : ∀ p ∈ pairsOf tokens, (convertTextInt inputs p.1 p.2).isSome) :
    _parse_workflow_inputs inputs uploads tokens =
      (⟨independentResolve inputs tokens, [], 0⟩, none) ∧
    (∀ x, x ∈ ((_parse_workflow_inputs inputs uploads tokens).1.args.map Prod.fst) ↔
      x ∈ (pairsOf tokens).map (fun p => strip2 p.1)) := by
  have h1 := resolvePairs_indep_aux inputs uploads tokens heven hconv ⟨[], [], 0⟩
  refine ⟨h1, fun x => ?_⟩
  have h2 := indepStep_fold_keys inputs (pairsOf tokens) [] hconv x
  simp only [List.map_nil, List.not_mem_nil, false_or] at h2
  rw [show _parse_workflow_inputs inputs uploads tokens =
    (⟨independentResolve inputs tokens, [], 0⟩, none) from h1]
  exact h2

/-- Witness for the amended C2: a Text argument and an Integer argument
resolve to the independent conversions with the exact key set. -/
theorem c2_independent_pairs_witness :
    ((["--name", "alice", "--count", "42"] : List String).length % 2 = 0 ∧
      (∀ p ∈ pairsOf ["--name", "alice", "--count", "42"],
        (convertTextInt [("name", PyType.text), ("count", PyType.integer)]
          p.1 p.2).isSome)) ∧
    (_parse_workflow_inputs [("name", PyType.text), ("count", PyType.integer)]
        (fun _ => ⟨"n", "s"⟩) ["--name", "alice", "--count", "42"] =
      (⟨independentResolve [("name", PyType.text), ("count", PyType.integer)]
          ["--name", "alice", "--count", "42"], [], 0⟩, none) ∧
      (∀ x, x ∈ ((_parse_workflow_inputs
            [("name", PyType.text), ("count", PyType.integer)]
            (fun _ => ⟨"n", "s"⟩) ["--name", "alice", "--count", "42"]).1.args.map
              Prod.fst) ↔
        x ∈ (pairsOf ["--name", "alice", "--count", "42"]).map
              (fun p => strip2 p.1))) :=
  ⟨⟨by decide, by decide⟩,
   c2_independent_pairs [("name", PyType.text), ("count", PyType.integer)]
     (fun _ => ⟨"n", "s"⟩) ["--name", "alice", "--count", "42"]
     (by decide) (by decide)⟩

/-- On a successful resolution from any starting state, the effect trace
grows by exactly the structured-data uploads, in token order, and the upload
counter grows by their number. -/
theorem resolvePairs_trace_aux (inputs : List (String × PyType))
    (uploads : Nat → UploadLocation) :
    ∀ tokens : List String, ∀ st : ResolveState,
      (resolvePairs inputs uploads tokens st).2 = none →
      (resolvePairs inputs uploads tokens st).1.trace =
        st.trace ++ structuredTrace uploads st.nUploads
          (structuredValues inputs tokens) ∧
      (resolvePairs inputs uploads tokens st).1.nUploads =
        st.nUploads + (structuredValues inputs tokens).length := by
  refine pair_induction ?_ ?_ ?_
  · intro st _
    simp [resolvePairs, structuredValues, pairsOf, structuredTrace]
  · intro a st h
    simp [resolvePairs] at h
  · intro a b l ih st h
    cases hl : lookupType inputs (strip2 a) with
    | none =>
        rw [show resolvePairs inputs uploads (a :: b :: l) st =
            (st, some (ResolveError.lookup (strip2 a))) from by
          simp [resolvePairs, resolveStep, hl]] at h
        simp at h
    | some pt =>
        cases pt with
        | text =>
            rw [show resolvePairs inputs uploads (a :: b :: l) st =
                resolvePairs inputs uploads l
                  ⟨insertArg st.args (strip2 a) (Value.str b),
                   st.trace, st.nUploads⟩ from by
              simp [resolvePairs, resolveStep, hl]] at h ⊢
            have hsv : structuredValues inputs (a :: b :: l) =
                structuredValues inputs l := by
              simp [structuredValues, pairsOf, hl]
            rw [hsv]
            exact ih _ h
        | integer =>
            cases hn : pyInt b with
            | none =>
                rw [show resolvePairs inputs uploads (a :: b :: l) st =
                    (st, some (ResolveError.conversion b)) from by
                  simp [resolvePairs, resolveStep, hl, hn]] at h
                simp at h
            | some n =>
                rw [show resolvePairs inputs uploads (a :: b :: l) st =
                    resolvePairs inputs uploads l
                      ⟨insertArg st.args (strip2 a) (Value.int n),
                       st.trace, st.nUploads⟩ from by
                  simp [resolvePairs, resolveStep, hl, hn]] at h ⊢
                have hsv : structuredValues inputs (a :: b :: l) =
                    structuredValues inputs l := by
                  simp [structuredValues, pairsOf, hl]
                rw [hsv]
                exact ih _ h
        | structuredDataset =>
            rw [show resolvePairs inputs uploads (a :: b :: l) st =
                resolvePairs inputs uploads l
                  ⟨insertArg st.args (strip2 a)
                     (Value.structuredDataset (uploads st.nUploads).native_url),
                   st.trace ++ [Effect.createUploadLocation,
                     Effect.putData b (uploads st.nUploads).signed_url],
                   st.nUploads + 1⟩ from by
              simp [resolvePairs, resolveStep, hl]] at h ⊢
            have hsv : structuredValues inputs (a :: b :: l) =
                b :: structuredValues inputs l := by
              simp [structuredValues, pairsOf, hl]
            rw [hsv]
            obtain ⟨ht, hn⟩ := ih _ h
            refine ⟨?_, ?_⟩
            · rw [ht]
              simp [structuredTrace]
            · rw [hn]
              simp only [List.length_cons]
              omega
        | other t =>
            rw [show resolvePairs inputs uploads (a :: b :: l) st =
                (st, some (ResolveError.unsupported (strip2 a))) from by
              simp [resolvePairs, resolveStep, hl]] at h
            simp at h

/-- C8: arguments are resolved in token order — on a successful resolution
the whole effect trace is the structured-data uploads interleaved with their
file transfers, one per structured-data argument, in exactly the order those
arguments occur in the token list, with the `k`-th acquisition consuming the
`k`-th descriptor. -/
theorem c8_upload_order (inputs : List (String × PyType))
    (uploads : Nat → UploadLocation) (tokens : List String)
    (h : (_parse_workflow_inputs inputs uploads tokens).2 = none) :
    (_parse_workflow_inputs inputs uploads tokens).1.trace =
      structuredTrace uploads 0 (structuredValues inputs tokens) ∧
    (_parse_workflow_inputs inputs uploads tokens).1.nUploads =
      (structuredValues inputs tokens).length := by
  have h2 := resolvePairs_trace_aux inputs uploads tokens ⟨[], [], 0⟩ h
  simpa using h2

/-- Witness for C8: two structured-data arguments separated by a text
argument upload in token order with successive descriptors. -/
theorem c8_upload_order_witness :
    ((_parse_workflow_inputs
        [("a", PyType.structuredDataset), ("t", PyType.text),
         ("b", PyType.structuredDataset)]
        (fun k => ⟨"n", String.append "s" (toString k)⟩)
        ["--a", "/f1", "--t", "x", "--b", "/f2"]).2 = none) ∧
    ((_parse_workflow_inputs
        [("a", PyType.structuredDataset), ("t", PyType.text),
         ("b", PyType.structuredDataset)]
        (fun k => ⟨"n", String.append "s" (toString k)⟩)
        ["--a", "/f1", "--t", "x", "--b", "/f2"]).1.trace =
      structuredTrace (fun k => ⟨"n", String.append "s" (toString k)⟩) 0
        (structuredValues
          [("a", PyType.structuredDataset), ("t", PyType.text),
           ("b", PyType.structuredDataset)]
          ["--a", "/f1", "--t", "x", "--b", "/f2"]) ∧
     (_parse_workflow_inputs
        [("a", PyType.structuredDataset), ("t", PyType.text),
         ("b", PyType.structuredDataset)]
        (fun k => ⟨"n", String.append "s" (toString k)⟩)
        ["--a", "/f1", "--t", "x", "--b", "/f2"]).1.nUploads =
      (structuredValues
        [("a", PyType.structuredDataset), ("t", PyType.text),
         ("b", PyType.structuredDataset)]
        ["--a", "/f1", "--t", "x", "--b", "/f2"]).length) :=
  ⟨by decide,
   c8_upload_order
     [("a", PyType.structuredDataset), ("t", PyType.text),
      ("b", PyType.structuredDataset)]
     (fun k => ⟨"n", String.append "s" (toString k)⟩)
     ["--a", "/f1", "--t", "x", "--b", "/f2"] (by decide)⟩

/-- An odd-length token list whose complete pairs resolve fails with the
index error, leaving exactly the state reached after the complete pairs. -/
theorem resolvePairs_dangling_aux (inputs : List (String × PyType))
    (uploads : Nat → UploadLocation) :
    ∀ tokens : List String, ∀ st : ResolveState,
      tokens.length % 2 = 1 →
      (resolvePairs inputs uploads (tokens.take (tokens.length - 1)) st).2 = none →
      resolvePairs inputs uploads tokens st =
        ((resolvePairs inputs uploads (tokens.take (tokens.length - 1)) st).1,
         some ResolveError.indexOutOfRange) := by
  refine pair_induction ?_ ?_ ?_
  · intro st hodd _
    simp at hodd
  · intro a st _ _
    rfl
  · intro a b l ih st hodd hok
    have hlodd : l.length % 2 = 1 := by
      simp only [List.length_cons] at hodd
      omega
    have htake : (a :: b :: l).take ((a :: b :: l).length - 1) =
        a :: b :: l.take (l.length - 1) := by
      obtain ⟨m, hm⟩ : ∃ m, l.length = m + 1 := ⟨l.length - 1, by omega⟩
      simp only [List.length_cons]
      rw [show l.length + 1 + 1 - 1 = l.length + 1 from by omega]
      rw [List.take_succ_cons, hm, List.take_succ_cons]
      rw [show m = l.length - 1 from by omega]
      rw [Nat.add_sub_cancel]
    rw [htake] at hok ⊢
    cases hstep : resolveStep inputs uploads a b st with
    | error e =>
        rw [show resolvePairs inputs uploads (a :: b :: l.take (l.length - 1)) st =
            (st, some e) from by simp [resolvePairs, hstep]] at hok
        simp at hok
    | ok st2 =>
        rw [show resolvePairs inputs uploads (a :: b :: l.take (l.length - 1)) st =
            resolvePairs inputs uploads (l.take (l.length - 1)) st2 from by
          simp [resolvePairs, hstep]] at hok ⊢
        rw [show resolvePairs inputs uploads (a :: b :: l) st =
            resolvePairs inputs uploads l st2 from by
          simp [resolvePairs, hstep]]
        exact ih st2 hlodd hok

/-- C10: an odd-length token list whose complete pairs all resolve
successfully fails with the out-of-range index access on reaching the
dangling flag — the dangling flag is neither dropped nor defaulted (the call
raises instead of returning a map), and the state at the failure is exactly
the state after the complete pairs, so their side effects have already
occurred. -/
theorem c10_dangling_flag (inputs : List (String × PyType))
    (uploads : Nat → UploadLocation) (tokens : List String)
    (hodd : tokens.length % 2 = 1)
    (hok : (resolvePairs inputs uploads (tokens.take (tokens.length - 1))
        ⟨[], [], 0⟩).2 = none) :
    _parse_workflow_inputs inputs uploads tokens =
      ((resolvePairs inputs uploads (tokens.take (tokens.length - 1))
          ⟨[], [], 0⟩).1,
       some ResolveError.indexOutOfRange) :=
  resolvePairs_dangling_aux inputs uploads tokens ⟨[], [], 0⟩ hodd hok

/-- Witness for C10: a structured-data pair followed by a dangling flag
fails with the index error after the pair's upload has happened. -/
theorem c10_dangling_flag_witness :
    ((["--df", "/a.csv", "--x"] : List String).length % 2 = 1 ∧
      (resolvePairs [("df", PyType.structuredDataset)] (fun _ => ⟨"n", "s"⟩)
        ((["--df", "/a.csv", "--x"] : List String).take
          ((["--df", "/a.csv", "--x"] : List String).length - 1))
        ⟨[], [], 0⟩).2 = none) ∧
    _parse_workflow_inputs [("df", PyType.structuredDataset)] (fun _ => ⟨"n", "s"⟩)
        ["--df", "/a.csv", "--x"] =
      ((resolvePairs [("df", PyType.structuredDataset)] (fun _ => ⟨"n", "s"⟩)
          ((["--df", "/a.csv", "--x"] : List String).take
            ((["--df", "/a.csv", "--x"] : List String).length - 1))
          ⟨[], [], 0⟩).1,
       some ResolveError.indexOutOfRange) :=
  ⟨⟨by decide, by decide⟩,
   c10_dangling_flag [("df", PyType.structuredDataset)] (fun _ => ⟨"n", "s"⟩)
     ["--df", "/a.csv", "--x"] (by decide) (by decide)⟩

end Register
